import Mathlib

/-!
Shallow embedding of src/googlescholar.py (the core pipeline of the
RecSys repository): the Field Extractor logic inside the three scraper
functions, and the orchestrator in main. Parsed markup pages are
modelled by what each CSS selector yields; Python dictionaries are
modelled as insertion-ordered association lists over a nested value
type; network fetches are an explicit oracle returning Except, an
error standing for a raised transport exception.
-/

/-- Values stored in a Python dictionary as built by the scrapers:
strings, lists, and nested dictionaries. -/
inductive Val where
  | str (s : String)
  | list (l : List Val)
  | dict (d : List (String × Val))

/-- A Python dict, insertion ordered. Keys are unique by construction. -/
abbrev Dict := List (String × Val)

/-- Python truthiness of a value, as used by the filters
result = \x7bk: v for k, v in result.items() if v\x7d. -/
def Val.truthy : Val → Bool
  | .str s => !(s == "")
  | .list l => !l.isEmpty
  | .dict d => !d.isEmpty

/-- Key lookup in a dict, first match. Models d[k] and (k in d). -/
def lookup : Dict → String → Option Val
  | [], _ => none
  | (k', v) :: rest, k => if k' = k then some v else lookup rest k

/-- Python dict union \x7b**a, **b\x7d: keys of a in order with values
overridden by b on collision, then the keys of b not in a. -/
def pyMerge (a b : Dict) : Dict :=
  a.map (fun kv => (kv.1, (lookup b kv.1).getD kv.2))
    ++ b.filter (fun kv => (lookup a kv.1).isNone)

/-- Helper for splitComma. -/
def splitCommaAux : List Char → List Char → List String
  | [], acc => [String.mk acc.reverse]
  | c :: cs, acc =>
    if c = ',' then String.mk acc.reverse :: splitCommaAux cs []
    else splitCommaAux cs (c :: acc)

/-- Python s.split(","): split at every comma, keeping empty pieces. -/
def splitComma (s : String) : List String :=
  splitCommaAux s.data []

/-- Python s.strip(): drop leading and trailing whitespace. -/
def pyStrip (s : String) : String :=
  String.mk (((s.data.dropWhile Char.isWhitespace).reverse.dropWhile Char.isWhitespace).reverse)

/-- Helper for pySplitWs. -/
def splitWsAux : List Char → List Char → List String
  | [], acc => if acc.isEmpty then [] else [String.mk acc.reverse]
  | c :: cs, acc =>
    if c.isWhitespace then
      if acc.isEmpty then splitWsAux cs []
      else String.mk acc.reverse :: splitWsAux cs []
    else splitWsAux cs (c :: acc)

/-- Python s.split() with no separator: maximal runs of non-whitespace,
empty pieces dropped. -/
def pySplitWs (s : String) : List String :=
  splitWsAux s.data []

/-- An anchor element: its href attribute, id attribute and text. -/
structure Anchor where
  hrefAttr : Option String
  idAttr : Option String
  text : String

/-- The title element of a search result block: its text and the first
anchor found inside it, when any. -/
structure TitleEl where
  text : String
  aTag : Option Anchor

/-- An element returned by the sibling selector, with the anchor that
find_next_sibling yields for it, when any. -/
structure SibElem where
  nextSiblingA : Option Anchor

/-- One organic search result block, selector .gs_r: what each selector
used by get_scholar_data yields on it. -/
structure SearchBlock where
  titleEl : Option TitleEl
  displayedLink : Option String
  snippet : Option String
  citedA : Option Anchor
  versionsSel : List SibElem

/-- A parsed search results page: the blocks found by .gs_r. -/
structure SearchPage where
  blocks : List SearchBlock

/-- Conditional field of a dict: present when the element is, with the
element text as value. Models if el: d[k] = el.get_text(). -/
def strField (k : String) : Option String → Dict
  | some t => [(k, Val.str t)]
  | none => []

/-- Body of the per-result loop of get_scholar_data, lines 22 to 53 of
src/googlescholar.py. No operation in it can raise, so the per-result
try never fires and it is total. -/
def parseSearchBlock (el : SearchBlock) : Dict :=
  let result : Dict := []
  let result := match el.titleEl with
    | some t =>
      let r := result ++ [( "title", Val.str t.text)]
      match t.aTag with
      | some a =>
        match a.hrefAttr with
        | some href =>
          r ++ [( "title_link", Val.str href), ( "id", Val.str (a.idAttr.getD ""))]
        | none => r
      | none => r
    | none => result
  let result := result ++ strField "displayed_link" el.displayedLink
  let result := result ++ strField "snippet" (el.snippet.map pyStrip)
  let result := match el.citedA with
    | some a =>
      result ++ [( "cited_by_count", Val.str a.text),
        ( "cited_link", Val.str ( "https://scholar.google.com" ++ a.hrefAttr.getD ""))]
    | none => result
  let result := match el.versionsSel with
    | [] => result
    | v :: _ =>
      match v.nextSiblingA with
      | some ver =>
        result ++ [( "versions_count", Val.str ver.text),
          ( "versions_link", Val.str ( "https://scholar.google.com" ++ ver.hrefAttr.getD ""))]
      | none => result
  result.filter (fun kv => kv.2.truthy)

/-- get_scholar_data: on a fetch exception return the empty list, else
extract every result block. -/
def get_scholar_data (fetch : Except Unit SearchPage) : List Dict :=
  match fetch with
  | .error _ => []
  | .ok page => page.blocks.map parseSearchBlock

/-- The name element of an author search block. -/
structure NameEl where
  text : String
  aTag : Option Anchor

/-- One author search result block, selector .gsc_1usr: what each
selector used by get_scholar_profiles yields on it. -/
structure ProfileBlock where
  nameEl : Option NameEl
  posEl : Option String
  emailEl : Option String
  deptEl : Option String
  citedEl : Option String

/-- A parsed author search page: the blocks found by .gsc_1usr. -/
structure AuthorPage where
  blocks : List ProfileBlock

/-- Body of the per-profile loop of get_scholar_profiles, lines 77 to 98
of src/googlescholar.py. The cited-by field takes the last whitespace
token of the element text; when the text has no token, Python raises
IndexError, modelled by the error case. -/
def parseProfileBlock (el : ProfileBlock) : Except Unit Dict :=
  let profile : Dict := []
  let profile := match el.nameEl with
    | some n =>
      let p := profile ++ [( "name", Val.str n.text)]
      match n.aTag with
      | some a =>
        match a.hrefAttr with
        | some href =>
          p ++ [( "name_link", Val.str ( "https://scholar.google.com" ++ href))]
        | none => p
      | none => p
    | none => profile
  let profile := profile ++ strField "position" el.posEl
  let profile := profile ++ strField "email" el.emailEl
  let profile := profile ++ strField "departments" el.deptEl
  match el.citedEl with
  | some t =>
    match (pySplitWs t).getLast? with
    | some last =>
      Except.ok ((profile ++ [( "cited_by_count", Val.str last)]).filter (fun kv => kv.2.truthy))
    | none => Except.error ()
  | none => Except.ok (profile.filter (fun kv => kv.2.truthy))

/-- The profiles loop of get_scholar_profiles: an exception in any block
propagates, discarding the profiles gathered so far. -/
def profilesLoop : List ProfileBlock → Except Unit (List Dict)
  | [] => Except.ok []
  | b :: rest =>
    match parseProfileBlock b with
    | .error e => Except.error e
    | .ok p =>
      match profilesLoop rest with
      | .error e => Except.error e
      | .ok ps => Except.ok (p :: ps)

/-- get_scholar_profiles: the whole body is wrapped in one try, so both
a fetch exception and an extraction exception yield the empty list. -/
def get_scholar_profiles (fetch : Except Unit AuthorPage) : List Dict :=
  match fetch with
  | .error _ => []
  | .ok page =>
    match profilesLoop page.blocks with
    | .ok ps => ps
    | .error _ => []

/-- One article row of a profile page, selector #gsc_a_b .gsc_a_t: the
title anchor and the texts of the .gs_gray elements, in order. -/
structure ArticleBlock where
  titleEl : Option Anchor
  gsGray : List String

/-- A parsed author profile page: what each selector used by
get_author_profile_data yields. -/
structure ProfilePage where
  nameEl : Option String
  posEl : Option String
  emailEl : Option String
  deptEl : Option String
  articleBlocks : List ArticleBlock
  totalCites : Option String
  hIndexAll : Option String
  iIndexAll : Option String

/-- Body of the articles loop of get_author_profile_data, lines 132 to
147 of src/googlescholar.py. -/
def parseArticle (el : ArticleBlock) : Dict :=
  let article : Dict := []
  let article := match el.titleEl with
    | some t =>
      let a := article ++ [( "title", Val.str t.text)]
      let link := t.hrefAttr.getD ""
      if link == "" then a
      else a ++ [( "link", Val.str ( "https://scholar.google.com" ++ link))]
    | none => article
  let article := article ++ strField "authors" el.gsGray.head?
  let article := article ++ strField "publication" el.gsGray[1]?
  article.filter (fun kv => kv.2.truthy)

/-- One row of the citation metrics table: when the fixed-position
selector matched, a singleton dict wrapping the cell text, else the
empty dict. -/
def metricRow (k : String) : Option String → Val
  | some t => Val.dict [(k, Val.dict [( "all", Val.str t)])]
  | none => Val.dict []

/-- get_author_profile_data: on a fetch exception return the empty
dict; otherwise identity fields are stored unfiltered, the articles key
always holds the extracted article list and the citation_metrics key
always holds a three row table. -/
def get_author_profile_data (fetch : Except Unit ProfilePage) : Dict :=
  match fetch with
  | .error _ => []
  | .ok page =>
    let profile_data : Dict := []
    let profile_data := profile_data ++ strField "name" page.nameEl
    let profile_data := profile_data ++ strField "position" page.posEl
    let profile_data := profile_data ++ strField "email" page.emailEl
    let profile_data := profile_data ++ strField "departments" page.deptEl
    let articles := page.articleBlocks.map (fun el => Val.dict (parseArticle el))
    let profile_data := profile_data ++ [( "articles", Val.list articles)]
    let table := [metricRow "citations" page.totalCites,
      metricRow "h_index" page.hIndexAll,
      metricRow "i_index" page.iIndexAll]
    profile_data ++ [( "citation_metrics", Val.list table)]

/-- An input paper record from the arXiv feed: the two fields main
reads, plus the remaining bibliographic fields, carried opaquely. -/
structure Paper where
  title : String
  authors : String
  rest : Dict

/-- The fetch oracle: the response (or raised transport exception) for
each search query, author name, and profile link value. -/
structure Oracle where
  search : String → Except Unit SearchPage
  authorSearch : String → Except Unit AuthorPage
  profile : Val → Except Unit ProfilePage

/-- One author entry of the output, main lines 213 to 224. -/
structure AuthorEntry where
  author_name : String
  profiles : List Dict

/-- One output record per paper, main lines 201 to 227. -/
structure PaperEntry where
  arxiv : Paper
  scholar_search : List Dict
  authors_details : List AuthorEntry

/-- main lines 209: split the authors string on commas, strip each
token, drop empty tokens. -/
def splitAuthors (s : String) : List String :=
  ((splitComma s).map pyStrip).filter (fun a => !(a == ""))

/-- main lines 213 to 224: fetch the author search page; for each
candidate carrying a name_link, fetch and merge the detailed profile;
candidates without a name_link are not appended. -/
def processAuthor (f : Oracle) (author : String) : AuthorEntry :=
  let profiles := get_scholar_profiles (f.authorSearch author)
  let detailed := profiles.filterMap (fun profile =>
    match lookup profile "name_link" with
    | some url => some (pyMerge profile (get_author_profile_data (f.profile url)))
    | none => none)
  { author_name := author, profiles := detailed }

/-- main lines 201 to 227: one output record for one paper. -/
def processPaper (f : Oracle) (paper : Paper) : PaperEntry :=
  let query := "\"" ++ paper.title ++ "\""
  let scholar_results := get_scholar_data (f.search query)
  let authors_list := splitAuthors paper.authors
  { arxiv := paper
  , scholar_search := scholar_results
  , authors_details := authors_list.map (processAuthor f) }

/-- main lines 199 to 230: the full pass over the input papers. -/
def run (f : Oracle) (papers : List Paper) : List PaperEntry :=
  papers.map (processPaper f)

/-! Concrete pages, blocks and oracles used by the counterexamples and
witnesses below. -/

/-- An author search block carrying a name but no anchor, hence no
profile link. -/
def blockNoLink : ProfileBlock := ⟨some ⟨ "A. Smith", none⟩, none, none, none, none⟩

/-- An author search block whose name anchor carries an href, hence a
profile link. -/
def blockWithLink : ProfileBlock :=
  ⟨some ⟨ "B. Lee", some ⟨some "/citations?user=xyz", none, "B. Lee"⟩⟩, none, none, none, none⟩

/-- An author search block with no cited-by element. -/
def blockGood : ProfileBlock := ⟨some ⟨ "Good", none⟩, none, none, none, none⟩

/-- An author search block whose cited-by element is present but holds
only whitespace, so its text has no whitespace token. -/
def blockBadCited : ProfileBlock := ⟨some ⟨ "Bad", none⟩, none, none, none, some " "⟩

/-- An oracle whose author search yields one link-less candidate. -/
def oracleC1 : Oracle :=
  ⟨fun _ => Except.error (), fun _ => Except.ok ⟨[blockNoLink]⟩, fun _ => Except.error ()⟩

/-- An author search page with a well-formed block followed by a block
whose cited-by extraction raises. -/
def pageC2 : AuthorPage := ⟨[blockGood, blockBadCited]⟩

/-- A profile page whose name element is present with empty text. -/
def pageC4 : ProfilePage := ⟨some "", none, none, none, [], none, none, none⟩

/-- An author search page with one well-formed block. -/
def pageC4w : AuthorPage := ⟨[blockGood]⟩

/-- An oracle on which every fetch raises. -/
def oracleDead : Oracle :=
  ⟨fun _ => Except.error (), fun _ => Except.error (), fun _ => Except.error ()⟩

/-- A paper with a duplicated author in its author-list string. -/
def paperX : Paper := ⟨ "X", "A. Smith, B. Lee, B. Lee", []⟩

/-- An oracle whose author search yields a link-less candidate followed
by a linked one. -/
def oracleC8 : Oracle :=
  ⟨fun _ => Except.error (), fun _ => Except.ok ⟨[blockNoLink, blockWithLink]⟩,
    fun _ => Except.error ()⟩

/-- A profile page with some citation metric cells present. -/
def pageC10 : ProfilePage :=
  ⟨some "N. Author", none, none, none, [], some "10", none, some "5"⟩

/-! Helper lemmas about lookup, merge and the loops. -/

/-- Lookup distributes over append, left side first. -/
lemma lookup_append (xs ys : Dict) (k : String) :
    lookup (xs ++ ys) k = if (lookup xs k).isSome then lookup xs k else lookup ys k := by
  induction xs with
  | nil => simp [lookup]
  | cons kv rest ih =>
    cases kv with
    | mk k' v' =>
      by_cases h : k' = k
      · simp [lookup, h]
      · simp [lookup, h, ih]

/-- Lookup in a conditional single field. -/
lemma lookup_strField (k k' : String) (o : Option String) :
    lookup (strField k o) k' = if k = k' then o.map Val.str else none := by
  cases o <;> by_cases h : k = k' <;> simp [strField, lookup, h]

/-- Lookup in the overridden copy of the left argument of pyMerge. -/
lemma lookup_map_getD (c d : Dict) (k : String) :
    lookup (c.map (fun kv => (kv.1, (lookup d kv.1).getD kv.2))) k
      = (lookup c k).map (fun v => (lookup d k).getD v) := by
  induction c with
  | nil => rfl
  | cons kv rest ih =>
    cases kv with
    | mk k' v' =>
      by_cases h : k' = k
      · subst h
        simp [lookup]
      · simp [lookup, h, ih]

/-- Lookup in the right remainder of pyMerge. -/
lemma lookup_filter_isNone (c d : Dict) (k : String) :
    lookup (d.filter (fun kv => (lookup c kv.1).isNone)) k
      = if (lookup c k).isNone then lookup d k else none := by
  induction d with
  | nil => simp [lookup]
  | cons kv rest ih =>
    cases kv with
    | mk k' v' =>
      by_cases h : k' = k
      · subst h
        by_cases hp : (lookup c k').isNone
        · simp [List.filter_cons, lookup, hp, ih]
        · simp [List.filter_cons, lookup, hp, ih]
      · by_cases hp : (lookup c k').isNone
        · simp [List.filter_cons, lookup, h, hp, ih]
        · simp [List.filter_cons, lookup, h, hp, ih]

/-- The lookup law of the Python dict union: the right argument wins on
a shared key, otherwise the left argument answers. -/
lemma lookup_pyMerge (c d : Dict) (k : String) :
    lookup (pyMerge c d) k = if (lookup d k).isSome then lookup d k else lookup c k := by
  unfold pyMerge
  cases hc : lookup c k <;> cases hd : lookup d k <;>
    simp [lookup_append, lookup_map_getD, lookup_filter_isNone, hc, hd]

/-- A key of the left argument stays present after pyMerge. -/
lemma lookup_pyMerge_isSome_left (c d : Dict) (k : String)
    (h : (lookup c k).isSome = true) :
    (lookup (pyMerge c d) k).isSome = true := by
  rw [lookup_pyMerge]
  cases hd : (lookup d k).isSome <;> simp_all

/-- The output keeps the input papers, one entry each, in order. -/
lemma run_map_arxiv (f : Oracle) (papers : List Paper) :
    (run f papers).map (fun e => e.arxiv) = papers := by
  induction papers with
  | nil => rfl
  | cons p ps ih => simpa [run, processPaper] using ih

/-- The per-paper author names are the split of the authors string. -/
lemma run_map_authors (f : Oracle) (papers : List Paper) :
    (run f papers).map (fun e => e.authors_details.map (fun a => a.author_name))
      = papers.map (fun p => splitAuthors p.authors) := by
  induction papers with
  | nil => rfl
  | cons p ps ih =>
    refine List.cons_eq_cons.mpr ⟨?_, ?_⟩
    · show ((splitAuthors p.authors).map (processAuthor f)).map (fun a => a.author_name)
        = splitAuthors p.authors
      rw [List.map_map]
      have hid : ∀ l : List String,
          l.map ((fun a => a.author_name) ∘ processAuthor f) = l := by
        intro l
        induction l with
        | nil => rfl
        | cons x xs ihx => simp [processAuthor, ihx]
      exact hid _
    · simpa [run] using ih

/-- The author profile list is the in-order image of the linked
candidates, each merged with its fetched detail. -/
lemma processAuthor_profiles (f : Oracle) (author : String) :
    (processAuthor f author).profiles
      = (get_scholar_profiles (f.authorSearch author)).filterMap
          (fun c => (lookup c "name_link").map
            (fun url => pyMerge c (get_author_profile_data (f.profile url)))) := by
  simp only [processAuthor]
  congr 1
  funext c
  cases h : lookup c "name_link" <;> simp [h]

/-- A cited-by element whose text has no whitespace token makes block
extraction raise. -/
lemma parseProfileBlock_error_of_no_token (b : ProfileBlock) (t : String)
    (ht : b.citedEl = some t) (hsplit : pySplitWs t = []) :
    parseProfileBlock b = Except.error () := by
  simp [parseProfileBlock, ht, hsplit]

/-- A block with no cited-by element always extracts. -/
lemma parseProfileBlock_ok_of_no_cited (b : ProfileBlock) (h : b.citedEl = none) :
    ∃ d, parseProfileBlock b = Except.ok d := by
  cases b with
  | mk n p e dd c =>
    cases h
    exact ⟨_, rfl⟩

/-- One raising block makes the whole profiles loop raise. -/
lemma profilesLoop_error_of_mem (bs : List ProfileBlock) (b : ProfileBlock)
    (hb : b ∈ bs) (he : parseProfileBlock b = Except.error ()) :
    profilesLoop bs = Except.error () := by
  induction bs with
  | nil => cases hb
  | cons hd tl ih =>
    cases hb with
    | head => simp [profilesLoop, he]
    | tail _ h =>
      cases hh : parseProfileBlock hd with
      | error e => cases e; simp [profilesLoop, hh]
      | ok p => simp [profilesLoop, hh, ih h]

/-- Every profile produced by the loop comes from some block. -/
lemma profilesLoop_mem (bs : List ProfileBlock) (ps : List Dict) (d : Dict)
    (hok : profilesLoop bs = Except.ok ps) (hd : d ∈ ps) :
    ∃ b ∈ bs, parseProfileBlock b = Except.ok d := by
  induction bs generalizing ps with
  | nil =>
    simp [profilesLoop] at hok
    subst hok
    cases hd
  | cons hd' tl ih =>
    cases hh : parseProfileBlock hd' with
    | error e => simp [profilesLoop, hh] at hok
    | ok p =>
      cases hloop : profilesLoop tl with
      | error e => simp [profilesLoop, hh, hloop] at hok
      | ok ps' =>
        simp [profilesLoop, hh, hloop] at hok
        subst hok
        cases hd with
        | head => exact ⟨hd', List.mem_cons_self _ _, hh⟩
        | tail _ h =>
          obtain ⟨b, hb, hbok⟩ := ih ps' hloop h
          exact ⟨b, List.mem_cons_of_mem _ hb, hbok⟩

/-- A successfully extracted profile block holds only truthy values. -/
lemma parseProfileBlock_ok_truthy (b : ProfileBlock) (d : Dict)
    (hok : parseProfileBlock b = Except.ok d) :
    ∀ kv ∈ d, kv.2.truthy = true := by
  intro kv hkv
  cases hc : b.citedEl with
  | none =>
    simp only [parseProfileBlock, hc, Except.ok.injEq] at hok
    subst hok
    exact (List.mem_filter.mp hkv).2
  | some t =>
    cases hl : (pySplitWs t).getLast? with
    | none => simp [parseProfileBlock, hc, hl] at hok
    | some last =>
      simp only [parseProfileBlock, hc, hl, Except.ok.injEq] at hok
      subst hok
      exact (List.mem_filter.mp hkv).2

/-- Every candidate returned by get_scholar_profiles holds only truthy
values. -/
lemma mem_get_scholar_profiles_truthy (fetch : Except Unit AuthorPage) (d : Dict)
    (hd : d ∈ get_scholar_profiles fetch) : ∀ kv ∈ d, kv.2.truthy = true := by
  cases fetch with
  | error e => cases hd
  | ok page =>
    cases hloop : profilesLoop page.blocks with
    | error e => simp [get_scholar_profiles, hloop] at hd
    | ok ps =>
      simp [get_scholar_profiles, hloop] at hd
      obtain ⟨b, _, hbok⟩ := profilesLoop_mem page.blocks ps d hloop hd
      exact parseProfileBlock_ok_truthy b d hbok

/-- A search result block holds only truthy values. -/
lemma parseSearchBlock_truthy (el : SearchBlock) :
    ∀ kv ∈ parseSearchBlock el, kv.2.truthy = true := by
  intro kv hkv
  exact (List.mem_filter.mp hkv).2

/-- An article record holds only truthy values. -/
lemma parseArticle_truthy (el : ArticleBlock) :
    ∀ kv ∈ parseArticle el, kv.2.truthy = true := by
  intro kv hkv
  exact (List.mem_filter.mp hkv).2

/-- Two oracles that agree pointwise are equal. -/
lemma oracle_eq (f g : Oracle) (hs : ∀ q, f.search q = g.search q)
    (ha : ∀ a, f.authorSearch a = g.authorSearch a)
    (hp : ∀ u, f.profile u = g.profile u) : f = g := by
  obtain ⟨s, a, p⟩ := f
  obtain ⟨s', a', p'⟩ := g
  have h1 : s = s' := funext hs
  have h2 : a = a' := funext ha
  have h3 : p = p' := funext hp
  subst h1
  subst h2
  subst h3
  rfl

/-! The claims. -/

/-- C1 counterexample: the Author Resolver returns one candidate, with
fields but without a profile link, yet the author profile list built by
main is empty: the candidate does not appear unmerged. -/
theorem C1_counterexample :
    get_scholar_profiles (oracleC1.authorSearch "A. Smith")
      = [[( "name", Val.str "A. Smith")]] ∧
    (processAuthor oracleC1 "A. Smith").profiles = [] :=
  ⟨rfl, rfl⟩

/-- C1 amended: a ProfileCandidate lacking a profile link is dropped
from the author profile list; the list consists exactly of the linked
candidates, in order, each merged with its fetched ProfileDetail. -/
theorem C1_linkless_dropped (f : Oracle) (author : String) (c : Dict)
    (_hc : c ∈ get_scholar_profiles (f.authorSearch author))
    (hnone : lookup c "name_link" = none) :
    c ∉ (processAuthor f author).profiles ∧
    (processAuthor f author).profiles
      = (get_scholar_profiles (f.authorSearch author)).filterMap
          (fun p => (lookup p "name_link").map
            (fun url => pyMerge p (get_author_profile_data (f.profile url)))) := by
  refine ⟨?_, processAuthor_profiles f author⟩
  intro hmem
  rw [processAuthor_profiles] at hmem
  obtain ⟨p, hp, hpc⟩ := List.mem_filterMap.mp hmem
  cases hurl : lookup p "name_link" with
  | none => rw [hurl] at hpc; cases hpc
  | some url =>
    simp only [hurl, Option.map_some'] at hpc
    injection hpc with hpc'
    have hsome :
        (lookup (pyMerge p (get_author_profile_data (f.profile url))) "name_link").isSome
          = true :=
      lookup_pyMerge_isSome_left _ _ _ (by rw [hurl]; rfl)
    rw [hpc', hnone] at hsome
    cases hsome

/-- C1 witness: the link-less candidate produced by oracleC1 is indeed
absent from the author profile list. -/
theorem C1_linkless_dropped_witness :
    [( "name", Val.str "A. Smith")] ∈ get_scholar_profiles (oracleC1.authorSearch "A. Smith") ∧
    [( "name", Val.str "A. Smith")] ∉ (processAuthor oracleC1 "A. Smith").profiles :=
  ⟨List.Mem.head _,
    (C1_linkless_dropped oracleC1 "A. Smith" [( "name", Val.str "A. Smith")]
      (List.Mem.head _) rfl).1⟩

/-- C2 counterexample: a page whose second block has a token-less
cited-by text yields the empty profile list, although the first block
alone extracts fine; the per-field failure wiped out every field of
every fragment instead of omitting one field. -/
theorem C2_counterexample :
    get_scholar_profiles (Except.ok pageC2) = [] ∧
    parseProfileBlock blockGood = Except.ok [( "name", Val.str "Good")] ∧
    pySplitWs " " = [] :=
  ⟨rfl, rfl, rfl⟩

/-- C2 amended: an absent element only omits its field, and in the
Search Resolver each result block is extracted independently; but in
the Author Resolver a cited-by element whose text has no whitespace
token raises, and the failure aborts the whole author-search
extraction, returning the empty sequence. -/
theorem C2_author_field_failure_aborts (page : AuthorPage) (b : ProfileBlock) (t : String)
    (hb : b ∈ page.blocks) (ht : b.citedEl = some t) (hsplit : pySplitWs t = []) :
    get_scholar_profiles (Except.ok page) = [] ∧
    (∀ el : ProfileBlock, el.citedEl = none → ∃ d, parseProfileBlock el = Except.ok d) ∧
    (∀ sp : SearchPage, get_scholar_data (Except.ok sp) = sp.blocks.map parseSearchBlock) := by
  refine ⟨?_, fun el h => parseProfileBlock_ok_of_no_cited el h, fun _ => rfl⟩
  have herr := parseProfileBlock_error_of_no_token b t ht hsplit
  have hloop := profilesLoop_error_of_mem page.blocks b hb herr
  simp [get_scholar_profiles, hloop]

/-- C2 witness: the abort behaviour at the concrete page pageC2. -/
theorem C2_author_field_failure_aborts_witness :
    get_scholar_profiles (Except.ok pageC2) = [] ∧
    (∀ el : ProfileBlock, el.citedEl = none → ∃ d, parseProfileBlock el = Except.ok d) ∧
    (∀ sp : SearchPage, get_scholar_data (Except.ok sp) = sp.blocks.map parseSearchBlock) :=
  C2_author_field_failure_aborts pageC2 blockBadCited " "
    (List.Mem.tail _ (List.Mem.head _)) rfl rfl

/-- C3: the run makes exactly one full pass, producing one output
record per paper in order, and a raised fetch exception in a search,
author-search or profile unit is absorbed at that unit and yields the
empty value for the unit, never aborting the run. -/
theorem C3_failure_isolation (f : Oracle) (papers : List Paper) :
    (run f papers).length = papers.length ∧
    (run f papers).map (fun e => e.arxiv) = papers ∧
    get_scholar_data (Except.error ()) = [] ∧
    get_scholar_profiles (Except.error ()) = [] ∧
    get_author_profile_data (Except.error ()) = [] := by
  refine ⟨?_, run_map_arxiv f papers, rfl, rfl, rfl⟩
  simp [run]

/-- C4 counterexample: a profile page whose name element has empty text
yields a ProfileDetail in which the key name is present and maps to the
empty string, a value that is not truthy. -/
theorem C4_counterexample :
    lookup (get_author_profile_data (Except.ok pageC4)) "name" = some (Val.str "") ∧
    (Val.str "").truthy = false :=
  ⟨rfl, rfl⟩

/-- C4 amended: SearchResult, ProfileCandidate and per-article mappings
never hold a non-truthy value; ProfileDetail does not share the
invariant: its identity fields are stored exactly as extracted, empty
string included. -/
theorem C4_no_empty_values :
    (∀ el : SearchBlock, ∀ kv ∈ parseSearchBlock el, kv.2.truthy = true) ∧
    (∀ fetch : Except Unit AuthorPage, ∀ d ∈ get_scholar_profiles fetch,
      ∀ kv ∈ d, kv.2.truthy = true) ∧
    (∀ el : ArticleBlock, ∀ kv ∈ parseArticle el, kv.2.truthy = true) ∧
    (∀ pg : ProfilePage, ∀ t : String, pg.nameEl = some t →
      lookup (get_author_profile_data (Except.ok pg)) "name" = some (Val.str t)) := by
  refine ⟨parseSearchBlock_truthy, mem_get_scholar_profiles_truthy, parseArticle_truthy, ?_⟩
  intro pg t h
  simp [get_author_profile_data, lookup_append, lookup_strField, lookup, h]

/-- C4 witness: a concrete candidate value produced by the Author
Resolver is truthy. -/
theorem C4_no_empty_values_witness :
    [( "name", Val.str "Good")] ∈ get_scholar_profiles (Except.ok pageC4w) ∧
    (Val.str "Good").truthy = true :=
  ⟨List.Mem.head _,
    C4_no_empty_values.2.1 (Except.ok pageC4w) [( "name", Val.str "Good")]
      (List.Mem.head _) ( "name", Val.str "Good") (List.Mem.head _)⟩

/-- C5: a raised transport exception on the search fetch of a paper
gives that paper an empty scholar_search sequence, the Author Resolver
likewise degrades to an empty sequence on a raised fetch, and the run
still processes the papers before and after it. -/
theorem C5_transport_error (f : Oracle) (p : Paper) (pre post : List Paper)
    (herr : f.search ( "\"" ++ p.title ++ "\"") = Except.error ()) :
    (processPaper f p).scholar_search = [] ∧
    run f (pre ++ p :: post) = run f pre ++ processPaper f p :: run f post ∧
    get_scholar_profiles (Except.error ()) = [] := by
  refine ⟨?_, ?_, rfl⟩
  · simp [processPaper, herr, get_scholar_data]
  · simp [run]

/-- C5 witness: the oracle on which every fetch raises, at the paper
titled X. -/
theorem C5_transport_error_witness :
    (processPaper oracleDead paperX).scholar_search = [] ∧
    run oracleDead ([] ++ paperX :: []) =
      run oracleDead [] ++ processPaper oracleDead paperX :: run oracleDead [] ∧
    get_scholar_profiles (Except.error ()) = [] :=
  C5_transport_error oracleDead paperX [] [] rfl

/-- C6: the merge law of the combined profile of main: on a key held by
the ProfileDetail the merged record answers with the detail value, and
on every other key with the candidate value. -/
theorem C6_merge_law (c d : Dict) (k : String) :
    lookup (pyMerge c d) k = if (lookup d k).isSome then lookup d k else lookup c k :=
  lookup_pyMerge c d k

/-- C7: the author entries of every output record are the comma split
of the paper author-list string, stripped, empty tokens dropped, order
kept and duplicates kept, so the scenario string yields three
entries. -/
theorem C7_author_split (f : Oracle) (papers : List Paper) :
    (run f papers).map (fun e => e.authors_details.map (fun a => a.author_name))
      = papers.map (fun p => splitAuthors p.authors) ∧
    splitAuthors "A. Smith, B. Lee, B. Lee" = [ "A. Smith", "B. Lee", "B. Lee"] :=
  ⟨run_map_authors f papers, rfl⟩

/-- C8 counterexample: an author-search page with two result blocks,
the first link-less, produces a profile list with a single entry, so
the output candidate sequence cannot coincide block by block with the
page result order. -/
theorem C8_counterexample :
    (get_scholar_profiles (oracleC8.authorSearch "B. Lee")).length = 2 ∧
    (processAuthor oracleC8 "B. Lee").profiles.length = 1 :=
  ⟨rfl, rfl⟩

/-- C8 amended: output paper order equals input paper order, author
order equals the split of the author-list field, and within an author
the profile list follows the page result order restricted to the
candidates carrying a profile link. -/
theorem C8_order_preservation (f : Oracle) (papers : List Paper) :
    (run f papers).map (fun e => e.arxiv) = papers ∧
    (run f papers).map (fun e => e.authors_details.map (fun a => a.author_name))
      = papers.map (fun p => splitAuthors p.authors) ∧
    ∀ author : String,
      (processAuthor f author).profiles
        = (get_scholar_profiles (f.authorSearch author)).filterMap
            (fun c => (lookup c "name_link").map
              (fun url => pyMerge c (get_author_profile_data (f.profile url)))) :=
  ⟨run_map_arxiv f papers, run_map_authors f papers,
    fun author => processAuthor_profiles f author⟩

/-- C9: the run is a deterministic function of the papers and of the
assignment of fetched responses: two oracles answering alike on every
query, author name and profile link give identical outputs. -/
theorem C9_determinism (f g : Oracle) (papers : List Paper)
    (hs : ∀ q, f.search q = g.search q)
    (ha : ∀ a, f.authorSearch a = g.authorSearch a)
    (hp : ∀ u, f.profile u = g.profile u) :
    run f papers = run g papers := by
  rw [oracle_eq f g hs ha hp]

/-- C9 witness: the determinism theorem applied at a concrete oracle
and paper list. -/
theorem C9_determinism_witness :
    (∀ q, oracleDead.search q = oracleDead.search q) ∧
    run oracleDead [paperX] = run oracleDead [paperX] :=
  ⟨fun _ => rfl,
    C9_determinism oracleDead oracleDead [paperX] (fun _ => rfl) (fun _ => rfl) (fun _ => rfl)⟩

/-- C10: a successful profile fetch always yields a record holding the
articles key and a citation_metrics key whose value is a list of
exactly three rows, the first a citations slot, the second an h-index
slot, the third an i-index slot, each either empty or a singleton
wrapping the cell text; a raised fetch yields the empty record with
neither key. -/
theorem C10_profile_shape (fetch : Except Unit ProfilePage) :
    (∀ pg : ProfilePage, fetch = Except.ok pg →
      (lookup (get_author_profile_data fetch) "articles").isSome = true ∧
      ∃ r1 r2 r3 : Val,
        lookup (get_author_profile_data fetch) "citation_metrics"
          = some (Val.list [r1, r2, r3]) ∧
        (r1 = Val.dict [] ∨ ∃ t, r1 = Val.dict [( "citations", Val.dict [( "all", Val.str t)])]) ∧
        (r2 = Val.dict [] ∨ ∃ t, r2 = Val.dict [( "h_index", Val.dict [( "all", Val.str t)])]) ∧
        (r3 = Val.dict [] ∨ ∃ t, r3 = Val.dict [( "i_index", Val.dict [( "all", Val.str t)])])) ∧
    (fetch = Except.error () → get_author_profile_data fetch = [] ∧
      lookup (get_author_profile_data fetch) "articles" = none ∧
      lookup (get_author_profile_data fetch) "citation_metrics" = none) := by
  constructor
  · intro pg hfetch
    subst hfetch
    constructor
    · simp [get_author_profile_data, lookup_append, lookup_strField, lookup]
    · refine ⟨metricRow "citations" pg.totalCites, metricRow "h_index" pg.hIndexAll,
        metricRow "i_index" pg.iIndexAll, ?_, ?_, ?_, ?_⟩
      · simp [get_author_profile_data, lookup_append, lookup_strField, lookup]
      · cases pg.totalCites <;> simp [metricRow]
      · cases pg.hIndexAll <;> simp [metricRow]
      · cases pg.iIndexAll <;> simp [metricRow]
  · intro hfetch
    subst hfetch
    exact ⟨rfl, rfl, rfl⟩

/-- C10 witness: the shape theorem applied at a concrete page. -/
theorem C10_profile_shape_witness :
    (Except.ok pageC10 = (Except.ok pageC10 : Except Unit ProfilePage)) ∧
    (lookup (get_author_profile_data (Except.ok pageC10)) "articles").isSome = true :=
  ⟨rfl, ((C10_profile_shape (Except.ok pageC10)).1 pageC10 rfl).1⟩
